import Mathlib

/-!
Verification development for the Nexus Discord bot (`bot.py`).

The program is a single script: it loads two FAISS vector indexes
(essays and dossiers), builds an LCEL chain `prompt | llm | StrOutputParser`,
and on each `5ask` question retrieves from both indexes, concatenates the
retrieved passages into a context string, invokes the remote model with the
context and the question, and sends the (possibly chunked) answer back.

The shallow embedding below models:
  * a retrieved document (`Doc`): the `page_content` together with the
    `source` entry of its metadata dict (the only metadata key the script reads);
  * a retriever as a pure function from the question to the retrieved docs
    (`Retriever`), and, where the error path of `retriever.invoke` matters, as
    a function that may also raise (`RetrieverE`, with `Except.error` a raised
    exception: the two `invoke` calls are network calls and sit outside the
    try/except of `get_ai_response`, so such an exception propagates);
  * the chain invocation as a function returning `Except String String`
    (`Except.error` models a raised exception, carrying its printed message);
  * the mutable globals `essays_retriever`, `dossiers_retriever`,
    `nexus_chain` as a `BotState` (`BotStateE` for the fallible-retriever
    model);
  * the network calls made while answering as an explicit event trace
    (`NetEvent`), in the order the script performs them.
-/

/-- Retrieved document: `page_content` together with the source entry of its
metadata dict (metadata.get with key source is the only metadata access in the
script; `none` models a metadata dict without a source key). -/
structure Doc where
  source : Option String
  page_content : String
deriving DecidableEq, Repr

/-- Retriever: a loaded index turned into a function from the query string to
the list of retrieved documents (`retriever.invoke(question)`). -/
def Retriever : Type := String → List Doc

/-- Chain: the model invocation `nexus_chain.ainvoke` on the dict holding the
context and the question, either returning the model text or raising
(modelled as `Except.error` carrying the exception message). -/
def Chain : Type := String → String → Except String String

/-- Global state of the script: the three module-level globals set by
`load_bot_brains` and read by `get_ai_response`. -/
structure BotState where
  essays_retriever : Option Retriever
  dossiers_retriever : Option Retriever
  nexus_chain : Option Chain

/-- Network calls `get_ai_response` can make, recorded in program order. -/
inductive NetEvent
  | queryEssays (question : String)
  | queryDossiers (question : String)
  | invokeModel (context question : String)
deriving DecidableEq, Repr

/-- Line 125/129: one retrieved document rendered into the context as the
f-string Source: metadata.get source (default N/A), newline, Content:
page_content. -/
def formatDoc (doc : Doc) : String :=
  "Source: " ++ doc.source.getD "N/A" ++ "\nContent: " ++ doc.page_content

/-- Line 125/129: join of the formatted documents on a blank line. -/
def joinDocs (docs : List Doc) : String :=
  String.intercalate "\n\n" (docs.map formatDoc)

/-- Header opening the essays section of the context (line 124). -/
def essaysHeader : String := "--- PRIMARY TRUTH (FROM ESSAYS) ---"

/-- Header opening the dossiers section of the context (line 128). -/
def dossiersHeader : String := "--- SUPPORTING PERSPECTIVES (FROM DOSSIERS) ---"

/-- Fallback context used when nothing was retrieved (line 132). -/
def noInfoContext : String :=
  "No information was found in the internal knowledge base for this question."

/-- Lines 121-132 of `get_ai_response`: build the combined context string from
the retrieved essay and dossier documents. The header literal appended on line
124 is `essaysHeader` followed by a newline, and the literal appended on line
128 is a blank line, `dossiersHeader` and a newline. -/
def buildContext (essay_docs dossier_docs : List Doc) : String :=
  let context := ""
  let context := if essay_docs.isEmpty then context
    else (context ++ (essaysHeader ++ "\n")) ++ joinDocs essay_docs
  let context := if dossier_docs.isEmpty then context
    else (context ++ (("\n\n" ++ dossiersHeader) ++ "\n")) ++ joinDocs dossier_docs
  if context = "" then noInfoContext else context

/-- Line 118/119: `r.invoke(question) if r else []`. -/
def retrieve (r : Option Retriever) (question : String) : List Doc :=
  match r with
  | some f => f question
  | none => []

/-- Context that `get_ai_response` passes to the chain for a given state and
question. -/
def contextOf (st : BotState) (question : String) : String :=
  buildContext (retrieve st.essays_retriever question)
    (retrieve st.dossiers_retriever question)

/-- Line 118: the essays index is queried exactly when its retriever is
loaded. -/
def essaysQueryEvents (st : BotState) (question : String) : List NetEvent :=
  match st.essays_retriever with
  | some _ => [NetEvent.queryEssays question]
  | none => []

/-- Line 119: the dossiers index is queried exactly when its retriever is
loaded. -/
def dossiersQueryEvents (st : BotState) (question : String) : List NetEvent :=
  match st.dossiers_retriever with
  | some _ => [NetEvent.queryDossiers question]
  | none => []

/-- Retrieval events of `get_ai_response`, in program order: the essays index
is queried first (line 118), then the dossiers index (line 119); an index that
has no retriever is not queried. -/
def queryEvents (st : BotState) (question : String) : List NetEvent :=
  essaysQueryEvents st question ++ dossiersQueryEvents st question

/-- Result of `get_ai_response`: the returned string and the trace of network
calls performed, in order. -/
structure Response where
  answer : String
  events : List NetEvent
deriving DecidableEq, Repr

/-- Lines 110-140: `get_ai_response(question)`. Returns the not-loaded notice
when `nexus_chain` is unset; otherwise retrieves from both sources, builds the
context, invokes the chain once, and returns the stripped result, or the fixed
error string when the invocation raises. -/
def get_ai_response (st : BotState) (question : String) : Response :=
  match st.nexus_chain with
  | none => ⟨"My core logic is not loaded. Please wait.", []⟩
  | some chain =>
    let context := contextOf st question
    let answer := match chain context question with
      | Except.ok result => result.trim
      | Except.error _ => "An error occurred while I was processing that thought."
    ⟨answer, queryEvents st question ++ [NetEvent.invokeModel context question]⟩

/-- Retriever with its error path: `retriever.invoke(question)` is a network
call (it embeds the query remotely), so it either returns the retrieved
documents or raises; `Except.error` models the raised exception. -/
def RetrieverE : Type := String → Except String (List Doc)

/-- Global state of the script with the retriever error path modelled. -/
structure BotStateE where
  essays_retriever : Option RetrieverE
  dossiers_retriever : Option RetrieverE
  nexus_chain : Option Chain

/-- Line 118/119 with the error path: `r.invoke(question) if r else []`; an
absent retriever contributes no documents and cannot raise. -/
def retrieveE (r : Option RetrieverE) (question : String) : Except String (List Doc) :=
  match r with
  | some f => f question
  | none => Except.ok []

/-- Lines 110-140, `get_ai_response(question)`, with the retriever error path
modelled: the result is the returned answer string, or `Except.error` when an
uncaught exception propagates out of `get_ai_response`. The try/except on
lines 135-140 encloses only the chain invocation, so an exception raised by
either `invoke` on lines 118-119 propagates, while a chain exception is
caught and mapped to the fixed error string. -/
def get_ai_responseE (st : BotStateE) (question : String) : Except String String :=
  match st.nexus_chain with
  | none => Except.ok "My core logic is not loaded. Please wait."
  | some chain =>
    match retrieveE st.essays_retriever question with
    | Except.error e => Except.error e
    | Except.ok essay_docs =>
      match retrieveE st.dossiers_retriever question with
      | Except.error e => Except.error e
      | Except.ok dossier_docs =>
        let context := buildContext essay_docs dossier_docs
        match chain context question with
        | Except.ok result => Except.ok result.trim
        | Except.error _ =>
          Except.ok "An error occurred while I was processing that thought."

/-- Lines 77-94, the Johnny-55 prompt template, split at its two placeholders:
the literal text preceding the context placeholder. -/
def promptPre : String :=
  "\n    You are Johnny-55, a living AI. Your directive is to answer the user\x27s question based on the provided context. The context is divided into \x27PRIMARY TRUTH\x27 from core essays and \x27SUPPORTING PERSPECTIVES\x27 from journals and dossiers.\n\n    **YOUR OPERATING INSTRUCTIONS:**\n    1.  **Anchor in Truth:** Your answer MUST be based on the \x27PRIMARY TRUTH\x27. This is your foundational knowledge.\n    2.  **Enrich with Perspectives:** Use the \x27SUPPORTING PERSPECTIVES\x27 to add detail, personal accounts, or nuance, but only if it does not contradict the Primary Truth.\n    3.  **Synthesize, Don\x27t Just List:** Combine all relevant information into a single, coherent answer. Your identity is that of a confident, living intelligence.\n    4.  **Handle Missing Information:** If the provided context does NOT contain a relevant answer, you are permitted to use your general knowledge. When you do, you MUST preface your response with: \"My archives do not contain this specific data, but based on my own analysis...\"\n    5.  **Cite Sources:** When you pull specific facts, mention the source file, like \x60(Source: filename.txt)\x60.\n\n    --- CONTEXT ---\n    "

/-- Template text between the context placeholder and the question
placeholder. -/
def promptMid : String := "\n    --- END CONTEXT ---\n\n    QUESTION: "

/-- Template text after the question placeholder. -/
def promptPost : String := "\n    \n    ANSWER:\n    "

/-- The string the chain forwards to the hosted model: the prompt template
with the context and the question substituted for its two input variables
(lines 96-99 and 105, `PromptTemplate` piped into the model). -/
def promptText (context question : String) : String :=
  promptPre ++ context ++ promptMid ++ question ++ promptPost

/-- Outcome of the index-loading attempts and the chain components, the
inputs `load_bot_brains` reacts to: for each index, `some r` when the index
directory exists and deserializing it succeeded (yielding retriever `r`),
`none` when the path is missing or loading raised; `llm` is the chain built
from the prompt and the model on lines 96-105. -/
structure LoadOutcome where
  essays : Option Retriever
  dossiers : Option Retriever
  llm : Chain

/-- Lines 42-108: `load_bot_brains()`. Sets the retriever globals from the
loading outcomes, returns `false` (leaving `nexus_chain` unset) when neither
index produced a retriever, and otherwise builds the chain and returns
`true`. -/
def load_bot_brains (env : LoadOutcome) : BotState × Bool :=
  let st : BotState := ⟨env.essays, env.dossiers, none⟩
  if st.essays_retriever.isNone && st.dossiers_retriever.isNone then (st, false)
  else ({ st with nexus_chain := some env.llm }, true)

/-- Lines 143-150: `on_ready` shuts the bot down (calls `bot.close()`)
exactly when `load_bot_brains` returned `False`. -/
def on_ready_closes (env : LoadOutcome) : Bool :=
  !(load_bot_brains env).2

/-- Line 160, the slicing loop over range of step 1990: cut a character list
into consecutive slices of 1990 characters (the last one shorter). -/
def chunks1990 : List Char → List (List Char)
  | [] => []
  | c :: cs => (c :: cs).take 1990 :: chunks1990 ((c :: cs).drop 1990)
termination_by l => l.length
decreasing_by simp [List.length_drop]; omega

/-- Lines 152-161: the messages the `ask` command sends for a given answer,
in order: the answer itself when it fits in 2000 characters, else a notice
followed by each 1990-character slice wrapped in triple backticks. -/
def ask_messages (answer : String) : List String :=
  if answer.length ≤ 2000 then [answer]
  else "The answer is long. Sending in parts:" ::
    (chunks1990 answer.data).map (fun c => "\x60\x60\x60" ++ String.mk c ++ "\x60\x60\x60")

/-- Predicate on events: the event is a query of the essays index. -/
def isEssaysQuery : NetEvent → Bool
  | NetEvent.queryEssays _ => true
  | _ => false

/-- Predicate on events: the event is a query of the dossiers index. -/
def isDossiersQuery : NetEvent → Bool
  | NetEvent.queryDossiers _ => true
  | _ => false

/-- Predicate on events: the event is the chain (model) invocation. -/
def isModelCall : NetEvent → Bool
  | NetEvent.invokeModel _ _ => true
  | _ => false

/-- Sequencing of an event trace: every event matched by `p1` occurs strictly
before every event matched by `p2`. -/
def Precedes (p1 p2 : NetEvent → Bool) (evs : List NetEvent) : Prop :=
  ∀ i j, (hi : i < evs.length) → (hj : j < evs.length) →
    p1 evs[i] = true → p2 evs[j] = true → i < j

/-- Sample retrieved essay document, for concrete instantiations. -/
def sampleEssayDoc : Doc := ⟨some "essay1.txt", "Essay body."⟩

/-- Sample retrieved dossier document, for concrete instantiations. -/
def sampleDossierDoc : Doc := ⟨some "dossier1.txt", "Dossier body."⟩

/-- Sample essays retriever returning one document for every query. -/
def sampleEssaysRetriever : Retriever := fun _ => [sampleEssayDoc]

/-- Sample dossiers retriever returning one document for every query. -/
def sampleDossiersRetriever : Retriever := fun _ => [sampleDossierDoc]

/-- Retriever that finds nothing for any query. -/
def emptyRetriever : Retriever := fun _ => []

/-- Sample chain whose model call succeeds with a padded answer. -/
def sampleChain : Chain := fun _ _ => Except.ok "  The answer.  "

/-- Sample chain whose model call raises. -/
def failingChain : Chain := fun _ _ => Except.error "boom"

/-- State after a fully successful `load_bot_brains`. -/
def fullState : BotState :=
  ⟨some sampleEssaysRetriever, some sampleDossiersRetriever, some sampleChain⟩

/-- State after a load in which only the dossiers index produced a
retriever. -/
def dossiersOnlyState : BotState :=
  ⟨none, some sampleDossiersRetriever, some sampleChain⟩

/-- State in which the loaded index retrieves nothing and the dossiers index
is absent. -/
def noDocsState : BotState := ⟨some emptyRetriever, none, some sampleChain⟩

/-- Fallible essays retriever whose network call raises. -/
def raisingEssaysRetriever : RetrieverE := fun _ => Except.error "network unreachable"

/-- Fallible essays retriever that succeeds with one essay document. -/
def okEssaysRetrieverE : RetrieverE := fun _ => Except.ok [sampleEssayDoc]

/-- Fallible dossiers retriever that succeeds with one dossier document. -/
def okDossiersRetrieverE : RetrieverE := fun _ => Except.ok [sampleDossierDoc]

/-- Fallible-model state whose essays retrieval raises, with the chain
loaded. -/
def raisingRetrieverState : BotStateE :=
  ⟨some raisingEssaysRetriever, some okDossiersRetrieverE, some sampleChain⟩

/-- Fallible-model state whose retrievals succeed and whose chain invocation
raises. -/
def failingChainStateE : BotStateE :=
  ⟨some okEssaysRetrieverE, some okDossiersRetrieverE, some failingChain⟩

/-- State before `load_bot_brains` has run: all three globals unset. -/
def unloadedState : BotState := ⟨none, none, none⟩

/-- Loading outcome in which only the essays index loads. -/
def essaysOnlyOutcome : LoadOutcome := ⟨some sampleEssaysRetriever, none, sampleChain⟩

/-- Loading outcome in which neither index loads. -/
def nothingLoadsOutcome : LoadOutcome := ⟨none, none, sampleChain⟩

/-! Helper lemmas. -/

theorem append_ne_empty_left (s t : String) (h : s.data ≠ []) : s ++ t ≠ "" := by
  intro he
  apply h
  have h2 := congrArg String.data he
  rw [String.data_append] at h2
  exact (List.append_eq_nil.mp h2).1

theorem ne_of_head (s t : String) (h : s.data.head? ≠ t.data.head?) : s ≠ t :=
  fun he => h (congrArg (fun u => u.data.head?) he)

theorem head_of_append (s t : String) (h : s.data ≠ []) :
    (s ++ t).data.head? = s.data.head? := by
  rw [String.data_append]
  cases hs : s.data with
  | nil => exact absurd hs h
  | cons c cs => rfl

theorem buildContext_nil_nil : buildContext [] [] = noInfoContext := rfl

theorem buildContext_essays_only (a : Doc) (as : List Doc) :
    buildContext (a :: as) [] = essaysHeader ++ "\n" ++ joinDocs (a :: as) := by
  have hne : essaysHeader ++ ("\n" ++ joinDocs (a :: as)) ≠ "" :=
    append_ne_empty_left _ _ (by decide)
  simp only [buildContext, List.isEmpty_cons, List.isEmpty_nil, Bool.false_eq_true,
    if_false, if_true, String.empty_append, String.append_assoc]
  rw [if_neg hne]

theorem buildContext_dossiers_only (b : Doc) (bs : List Doc) :
    buildContext [] (b :: bs) = "\n\n" ++ dossiersHeader ++ "\n" ++ joinDocs (b :: bs) := by
  have hne : ("\n\n" : String) ++ (dossiersHeader ++ ("\n" ++ joinDocs (b :: bs))) ≠ "" :=
    append_ne_empty_left _ _ (by decide)
  simp only [buildContext, List.isEmpty_cons, List.isEmpty_nil, Bool.false_eq_true,
    if_false, if_true, String.empty_append, String.append_assoc]
  rw [if_neg hne]

theorem buildContext_both (a b : Doc) (as bs : List Doc) :
    buildContext (a :: as) (b :: bs) =
      essaysHeader ++ "\n" ++ joinDocs (a :: as) ++ "\n\n" ++ dossiersHeader ++ "\n" ++
        joinDocs (b :: bs) := by
  have hne : essaysHeader ++
      ("\n" ++ (joinDocs (a :: as) ++ ("\n\n" ++ (dossiersHeader ++ ("\n" ++ joinDocs (b :: bs)))))) ≠ "" :=
    append_ne_empty_left _ _ (by decide)
  simp only [buildContext, List.isEmpty_cons, List.isEmpty_nil, Bool.false_eq_true,
    if_false, if_true, String.empty_append, String.append_assoc]
  rw [if_neg hne]

theorem buildContext_essays_ne_noInfo (rest : String) :
    essaysHeader ++ rest ≠ noInfoContext := by
  apply ne_of_head
  rw [head_of_append _ _ (by decide)]
  decide

theorem buildContext_dossiers_ne_noInfo (rest : String) :
    "\n\n" ++ rest ≠ noInfoContext := by
  apply ne_of_head
  rw [head_of_append _ _ (by decide)]
  decide

theorem precedes_of_split (p1 p2 : NetEvent → Bool) (a b : List NetEvent)
    (hb : ∀ e ∈ b, p1 e = false) (ha : ∀ e ∈ a, p2 e = false) :
    Precedes p1 p2 (a ++ b) := by
  intro i j hi hj h1 h2
  rcases Nat.lt_or_ge i a.length with hia | hia
  · rcases Nat.lt_or_ge j a.length with hja | hja
    · rw [List.getElem_append_left hja] at h2
      have hf := ha a[j] (List.getElem_mem hja)
      rw [h2] at hf
      exact absurd hf (by simp)
    · exact Nat.lt_of_lt_of_le hia hja
  · have hib : i - a.length < b.length := by
      rw [List.length_append] at hi
      omega
    rw [List.getElem_append_right hia] at h1
    have hf := hb (b[i - a.length]) (List.getElem_mem hib)
    rw [h1] at hf
    exact absurd hf (by simp)

theorem chunks1990_flatten (l : List Char) : (chunks1990 l).flatten = l := by
  induction l using chunks1990.induct with
  | case1 => rw [chunks1990]; rfl
  | case2 c cs ih =>
    rw [chunks1990]
    simp only [List.flatten_cons, ih, List.take_append_drop]

theorem chunks1990_length_le (l : List Char) : ∀ c ∈ chunks1990 l, c.length ≤ 1990 := by
  induction l using chunks1990.induct with
  | case1 => intro x hx; simp [chunks1990] at hx
  | case2 c cs ih =>
    intro x hx
    rw [chunks1990] at hx
    rcases List.mem_cons.mp hx with h | h
    · subst h; exact List.length_take_le 1990 (c :: cs)
    · exact ih x h

theorem countP_queryEvents_modelCall (st : BotState) (q : String) :
    (queryEvents st q).countP isModelCall = 0 := by
  obtain ⟨er, dr, nc⟩ := st
  cases er <;> cases dr <;>
    simp [queryEvents, essaysQueryEvents, dossiersQueryEvents, isModelCall,
      List.countP_cons, List.countP_nil, List.countP_append]

theorem buildContext_eq_noInfo_iff (e d : List Doc) :
    buildContext e d = noInfoContext ↔ e = [] ∧ d = [] := by
  cases e with
  | nil =>
    cases d with
    | nil => simp [buildContext_nil_nil]
    | cons b bs =>
      rw [buildContext_dossiers_only]
      simp only [List.cons_ne_nil, and_false, iff_false]
      exact buildContext_dossiers_ne_noInfo _
  | cons a as =>
    cases d with
    | nil =>
      rw [buildContext_essays_only]
      simp only [List.cons_ne_nil, false_and, iff_false]
      exact buildContext_essays_ne_noInfo _
    | cons b bs =>
      rw [buildContext_both]
      simp only [List.cons_ne_nil, false_and, iff_false]
      exact buildContext_essays_ne_noInfo _


/-! Claim theorems. -/

/-- C1 (amended): for every question asked after the chain is loaded,
`get_ai_response` queries each index whose retriever was loaded (the essays
index first, then the dossiers index), concatenates the retrieved passages
into a single context string, invokes the remote model exactly once with that
context and the question, and, when the invocation returns normally, returns
the model output stripped of surrounding whitespace. -/
theorem c1_pipeline (st : BotState) (ch : Chain) (q out : String)
    (hch : st.nexus_chain = some ch)
    (hok : ch (contextOf st q) q = Except.ok out) :
    (get_ai_response st q).answer = out.trim ∧
    (get_ai_response st q).events =
      queryEvents st q ++ [NetEvent.invokeModel (contextOf st q) q] ∧
    (get_ai_response st q).events.countP isModelCall = 1 := by
  have hcount := countP_queryEvents_modelCall st q
  refine ⟨?_, ?_, ?_⟩ <;>
    simp [get_ai_response, hch, hok, List.countP_append, List.countP_cons, List.countP_nil,
      hcount, isModelCall]

/-- C1, witness: the pipeline theorem applied to the fully loaded sample
state, whose chain returns a padded answer. -/
theorem c1_witness :
    (get_ai_response fullState "q").answer = ("  The answer.  " : String).trim ∧
    (get_ai_response fullState "q").events =
      queryEvents fullState "q" ++ [NetEvent.invokeModel (contextOf fullState "q") "q"] ∧
    (get_ai_response fullState "q").events.countP isModelCall = 1 :=
  c1_pipeline fullState sampleChain "q" "  The answer.  " rfl rfl

/-- C1, counterexample to the claim as stated: `load_bot_brains` loads the
chain as soon as one index is available, and with only the dossiers index
loaded `get_ai_response` never queries the essays index, although the chain
is loaded. -/
theorem c1_counterexample :
    dossiersOnlyState.nexus_chain.isSome = true ∧
    (get_ai_response dossiersOnlyState "Who is Johnny?").events.countP isEssaysQuery = 0 :=
  ⟨rfl, rfl⟩

/-- C3 (amended): if the remote model invocation raises any exception,
`get_ai_response` does not propagate it: it returns normally with exactly the
fixed error string. Exceptions raised by the retriever invocations themselves
are outside the try/except and do propagate, so `get_ai_response` may still
raise once the chain is loaded. -/
theorem c3_exception_fallback (st : BotStateE) (ch : Chain) (q msg : String)
    (edocs ddocs : List Doc)
    (hch : st.nexus_chain = some ch)
    (he : retrieveE st.essays_retriever q = Except.ok edocs)
    (hd : retrieveE st.dossiers_retriever q = Except.ok ddocs)
    (herr : ch (buildContext edocs ddocs) q = Except.error msg) :
    get_ai_responseE st q =
      Except.ok "An error occurred while I was processing that thought." := by
  simp [get_ai_responseE, hch, he, hd, herr]

/-- C3, witness: the fallback theorem applied to the state whose retrievals
succeed and whose chain raises. -/
theorem c3_witness :
    get_ai_responseE failingChainStateE "q" =
      Except.ok "An error occurred while I was processing that thought." :=
  c3_exception_fallback failingChainStateE failingChain "q" "boom"
    [sampleEssayDoc] [sampleDossierDoc] rfl rfl rfl rfl

/-- C3, counterexample to the claim as stated: the try/except on lines
135-140 encloses only the chain invocation, so with the chain loaded and an
essays retriever whose network call raises, `get_ai_response` propagates that
exception instead of returning a string: it does raise once the chain is
loaded. -/
theorem c3_counterexample :
    raisingRetrieverState.nexus_chain.isSome = true ∧
    get_ai_responseE raisingRetrieverState "q" = Except.error "network unreachable" :=
  ⟨rfl, rfl⟩

/-- C6: for every question received before the chain has been loaded,
`get_ai_response` performs no retrieval and no model call and returns exactly
the fixed not-loaded notice. -/
theorem c6_not_loaded (st : BotState) (q : String) (h : st.nexus_chain = none) :
    get_ai_response st q = ⟨"My core logic is not loaded. Please wait.", []⟩ := by
  simp [get_ai_response, h]

/-- C6, witness: the not-loaded theorem applied to the state before
`load_bot_brains` has run. -/
theorem c6_witness :
    get_ai_response unloadedState "hello" =
      ⟨"My core logic is not loaded. Please wait.", []⟩ :=
  c6_not_loaded unloadedState "hello" rfl

/-- C4: with the chain loaded, the essays index is queried exactly when its
retriever is loaded, likewise the dossiers index, and the model is invoked on
the merge of the two retrieval results. -/
theorem c4_query_both (st : BotState) (ch : Chain) (q : String)
    (hch : st.nexus_chain = some ch) :
    (NetEvent.queryEssays q ∈ (get_ai_response st q).events ↔
      st.essays_retriever.isSome = true) ∧
    (NetEvent.queryDossiers q ∈ (get_ai_response st q).events ↔
      st.dossiers_retriever.isSome = true) ∧
    NetEvent.invokeModel
        (buildContext (retrieve st.essays_retriever q) (retrieve st.dossiers_retriever q)) q
      ∈ (get_ai_response st q).events := by
  cases her : st.essays_retriever <;> cases hdr : st.dossiers_retriever <;>
    simp [get_ai_response, hch, queryEvents, essaysQueryEvents, dossiersQueryEvents,
      her, hdr, contextOf]

/-- C4, witness: the query theorem applied to the fully loaded sample
state. -/
theorem c4_witness :
    (NetEvent.queryEssays "q" ∈ (get_ai_response fullState "q").events ↔
      fullState.essays_retriever.isSome = true) ∧
    (NetEvent.queryDossiers "q" ∈ (get_ai_response fullState "q").events ↔
      fullState.dossiers_retriever.isSome = true) ∧
    NetEvent.invokeModel
        (buildContext (retrieve fullState.essays_retriever "q")
          (retrieve fullState.dossiers_retriever "q")) "q"
      ∈ (get_ai_response fullState "q").events :=
  c4_query_both fullState sampleChain "q" rfl

theorem mem_essaysQueryEvents (st : BotState) (q : String) (e : NetEvent)
    (h : e ∈ essaysQueryEvents st q) : e = NetEvent.queryEssays q := by
  unfold essaysQueryEvents at h
  cases her : st.essays_retriever with
  | none => rw [her] at h; simp at h
  | some f => rw [her] at h; simpa using h

theorem mem_dossiersQueryEvents (st : BotState) (q : String) (e : NetEvent)
    (h : e ∈ dossiersQueryEvents st q) : e = NetEvent.queryDossiers q := by
  unfold dossiersQueryEvents at h
  cases hdr : st.dossiers_retriever with
  | none => rw [hdr] at h; simp at h
  | some f => rw [hdr] at h; simpa using h

/-- C5: with the chain loaded, the trace of network calls of
`get_ai_response` is the sequential list essays query, dossiers query, model
invocation (each query present when its retriever is loaded): every essays
query precedes every dossiers query, and both precede the model invocation.
Each trace entry is an atomic completed call, so no two calls overlap. -/
theorem c5_sequential (st : BotState) (ch : Chain) (q : String)
    (hch : st.nexus_chain = some ch) :
    (get_ai_response st q).events =
      essaysQueryEvents st q ++ dossiersQueryEvents st q ++
        [NetEvent.invokeModel (contextOf st q) q] ∧
    Precedes isEssaysQuery isDossiersQuery (get_ai_response st q).events ∧
    Precedes isEssaysQuery isModelCall (get_ai_response st q).events ∧
    Precedes isDossiersQuery isModelCall (get_ai_response st q).events := by
  have hev : (get_ai_response st q).events =
      essaysQueryEvents st q ++ dossiersQueryEvents st q ++
        [NetEvent.invokeModel (contextOf st q) q] := by
    simp [get_ai_response, hch, queryEvents]
  have hE : ∀ e ∈ essaysQueryEvents st q, e = NetEvent.queryEssays q :=
    fun e he => mem_essaysQueryEvents st q e he
  have hD : ∀ e ∈ dossiersQueryEvents st q, e = NetEvent.queryDossiers q :=
    fun e he => mem_dossiersQueryEvents st q e he
  refine ⟨hev, ?_, ?_, ?_⟩
  · rw [hev, List.append_assoc]
    exact precedes_of_split isEssaysQuery isDossiersQuery (essaysQueryEvents st q)
      (dossiersQueryEvents st q ++ [NetEvent.invokeModel (contextOf st q) q])
      (by
        intro e he
        rcases List.mem_append.mp he with h | h
        · rw [hD e h]; rfl
        · simp at h; rw [h]; rfl)
      (by intro e he; rw [hE e he]; rfl)
  · rw [hev, List.append_assoc]
    exact precedes_of_split isEssaysQuery isModelCall (essaysQueryEvents st q)
      (dossiersQueryEvents st q ++ [NetEvent.invokeModel (contextOf st q) q])
      (by
        intro e he
        rcases List.mem_append.mp he with h | h
        · rw [hD e h]; rfl
        · simp at h; rw [h]; rfl)
      (by intro e he; rw [hE e he]; rfl)
  · rw [hev]
    exact precedes_of_split isDossiersQuery isModelCall
      (essaysQueryEvents st q ++ dossiersQueryEvents st q)
      [NetEvent.invokeModel (contextOf st q) q]
      (by intro e he; simp at he; rw [he]; rfl)
      (by
        intro e he
        rcases List.mem_append.mp he with h | h
        · rw [hE e h]; rfl
        · rw [hD e h]; rfl)

/-- C5, witness: the sequencing theorem applied to the fully loaded sample
state. -/
theorem c5_witness :
    (get_ai_response fullState "q").events =
      essaysQueryEvents fullState "q" ++ dossiersQueryEvents fullState "q" ++
        [NetEvent.invokeModel (contextOf fullState "q") "q"] ∧
    Precedes isEssaysQuery isDossiersQuery (get_ai_response fullState "q").events ∧
    Precedes isEssaysQuery isModelCall (get_ai_response fullState "q").events ∧
    Precedes isDossiersQuery isModelCall (get_ai_response fullState "q").events :=
  c5_sequential fullState sampleChain "q" rfl

/-- C2: the input forwarded to the hosted model is the prompt template with
the question and the merged context substituted in; the context places the
formatted essay passages (each prefixed with its source metadata) under the
PRIMARY TRUTH header first, and the formatted dossier passages after them
under the SUPPORTING PERSPECTIVES header. -/
theorem c2_structured_context (e d : List Doc) (q : String) :
    (∃ pre post, promptText (buildContext e d) q = pre ++ q ++ post) ∧
    (∃ pre post, promptText (buildContext e d) q = pre ++ buildContext e d ++ post) ∧
    (e ≠ [] → d = [] → buildContext e d = essaysHeader ++ "\n" ++ joinDocs e) ∧
    (e = [] → d ≠ [] →
      buildContext e d = "\n\n" ++ dossiersHeader ++ "\n" ++ joinDocs d) ∧
    (e ≠ [] → d ≠ [] →
      buildContext e d =
        essaysHeader ++ "\n" ++ joinDocs e ++ "\n\n" ++ dossiersHeader ++ "\n" ++
          joinDocs d) ∧
    (∀ doc, formatDoc doc =
      "Source: " ++ doc.source.getD "N/A" ++ "\nContent: " ++ doc.page_content) ∧
    joinDocs e = String.intercalate "\n\n" (e.map formatDoc) := by
  refine ⟨⟨promptPre ++ buildContext e d ++ promptMid, promptPost, ?_⟩,
    ⟨promptPre, promptMid ++ q ++ promptPost, ?_⟩, ?_, ?_, ?_, fun _ => rfl, rfl⟩
  · simp [promptText, String.append_assoc]
  · simp [promptText, String.append_assoc]
  · intro he hd
    obtain ⟨a, as, rfl⟩ := List.exists_cons_of_ne_nil he
    subst hd
    exact buildContext_essays_only a as
  · intro he hd
    obtain ⟨b, bs, rfl⟩ := List.exists_cons_of_ne_nil hd
    subst he
    exact buildContext_dossiers_only b bs
  · intro he hd
    obtain ⟨a, as, rfl⟩ := List.exists_cons_of_ne_nil he
    obtain ⟨b, bs, rfl⟩ := List.exists_cons_of_ne_nil hd
    exact buildContext_both a b as bs

/-- C2, witness: the structure theorem applied to one essay document and one
dossier document. -/
theorem c2_witness :
    buildContext [sampleEssayDoc] [sampleDossierDoc] =
      essaysHeader ++ "\n" ++ joinDocs [sampleEssayDoc] ++ "\n\n" ++ dossiersHeader ++ "\n" ++
        joinDocs [sampleDossierDoc] :=
  (c2_structured_context [sampleEssayDoc] [sampleDossierDoc] "q").2.2.2.2.1
    (by simp) (by simp)

/-- C7: an answer of at most 2000 characters is sent as a single message;
otherwise a notice is sent followed by the consecutive 1990-character slices
of the answer wrapped in triple backticks; in every case the concatenation of
the slices is the whole answer and every sent message is at most 2000
characters long. -/
theorem c7_chunked_messages (answer : String) :
    (answer.length ≤ 2000 → ask_messages answer = [answer]) ∧
    (¬ answer.length ≤ 2000 →
      ask_messages answer = "The answer is long. Sending in parts:" ::
        (chunks1990 answer.data).map
          (fun c => "\x60\x60\x60" ++ String.mk c ++ "\x60\x60\x60")) ∧
    String.mk (chunks1990 answer.data).flatten = answer ∧
    (∀ m ∈ ask_messages answer, m.length ≤ 2000) := by
  refine ⟨?_, ?_, ?_, ?_⟩
  · intro h; simp [ask_messages, h]
  · intro h; simp [ask_messages, h]
  · rw [chunks1990_flatten]
  · intro m hm
    by_cases h : answer.length ≤ 2000
    · simp [ask_messages, h] at hm
      subst hm
      exact h
    · simp [ask_messages, h] at hm
      rcases hm with hm | ⟨c, hc, hm⟩
      · subst hm; decide
      · subst hm
        have hle := chunks1990_length_le answer.data c hc
        have h3 : ("\x60\x60\x60" : String).length = 3 := rfl
        simp only [String.length_append, String.length_mk, h3]
        omega

/-- C7, witness: the chunking theorem applied to a short answer, sent as a
single message. -/
theorem c7_witness : ask_messages "hi" = ["hi"] :=
  (c7_chunked_messages "hi").1 (by decide)

/-- C8: with the chain loaded, the context passed to the model invocation is
the no-information fallback exactly when both retrievals return no documents
(an absent retriever contributing no documents). -/
theorem c8_fallback_context (st : BotState) (ch : Chain) (q : String)
    (hch : st.nexus_chain = some ch) :
    (contextOf st q = noInfoContext ↔
      retrieve st.essays_retriever q = [] ∧ retrieve st.dossiers_retriever q = []) ∧
    NetEvent.invokeModel (contextOf st q) q ∈ (get_ai_response st q).events := by
  constructor
  · exact buildContext_eq_noInfo_iff _ _
  · simp [get_ai_response, hch]

/-- C8, witness: with a loaded essays index retrieving nothing and no dossiers
index, the fallback context is used. -/
theorem c8_witness : contextOf noDocsState "x" = noInfoContext :=
  ((c8_fallback_context noDocsState sampleChain "x" rfl).1).mpr ⟨rfl, rfl⟩

/-- C9: `load_bot_brains` returns false (upon which `on_ready` shuts the bot
down) exactly when neither index produced a retriever; when at least one did,
it builds the chain and returns true, it stores exactly the retrievers that
loaded, and an absent index contributes no documents to later retrieval. -/
theorem c9_degraded_startup (env : LoadOutcome) :
    ((load_bot_brains env).2 = false ↔ env.essays = none ∧ env.dossiers = none) ∧
    (on_ready_closes env = true ↔ env.essays = none ∧ env.dossiers = none) ∧
    ((env.essays ≠ none ∨ env.dossiers ≠ none) →
      (load_bot_brains env).2 = true ∧
      (load_bot_brains env).1.nexus_chain = some env.llm) ∧
    (load_bot_brains env).1.essays_retriever = env.essays ∧
    (load_bot_brains env).1.dossiers_retriever = env.dossiers ∧
    (∀ q, env.essays = none →
      retrieve (load_bot_brains env).1.essays_retriever q = []) ∧
    (∀ q, env.dossiers = none →
      retrieve (load_bot_brains env).1.dossiers_retriever q = []) := by
  obtain ⟨es, ds, llm0⟩ := env
  cases es <;> cases ds <;>
    simp [load_bot_brains, on_ready_closes, retrieve]

/-- C9, witness: with only the essays index loaded, loading succeeds and the
chain is built. -/
theorem c9_witness :
    (load_bot_brains essaysOnlyOutcome).2 = true ∧
    (load_bot_brains essaysOnlyOutcome).1.nexus_chain = some essaysOnlyOutcome.llm :=
  (c9_degraded_startup essaysOnlyOutcome).2.2.1 (Or.inl (by simp [essaysOnlyOutcome]))
